import Mathlib

set_option maxRecDepth 100000

/-!
Verification of the `/generate` endpoint of `main.py`.

The program is a single Flask route that (1) validates a JSON request body,
(2) scrapes a target web page, (3) calls a generative-AI service for
vulnerability findings, (4) calls it a second time (through the helper
`analyze_threat_level`) for a threat classification, and (5) composes a JSON
response.  The two outbound generation calls and the page fetch are external
collaborators; they are modelled by an environment record `RTG.Env` holding
the outcome of each call, and the endpoint is embedded as a pure function
from the parsed request and that environment to an HTTP response together
with a trace recording which outbound calls were made and with what inputs.
-/

namespace RTG

/-- Python truthiness fallback `a or b` on strings: `b` when `a` is empty. -/
def pyOr (a b : String) : String := if a = "" then b else a

/-- Python string slice `s[:n]`: the first `n` characters of `s`. -/
def strTake (s : String) (n : Nat) : String := ⟨s.data.take n⟩

/-- Python `s.strip()`: remove leading and trailing whitespace characters. -/
def pyStrip (s : String) : String :=
  ⟨((s.data.dropWhile Char.isWhitespace).reverse.dropWhile Char.isWhitespace).reverse⟩

/-- One safety rating attached to a candidate (`rating.blocked`, main.py line 162). -/
structure SafetyRating where
  blocked : Bool
  deriving DecidableEq

/-- Shape of `candidate.content` for the first call (main.py lines 167-173):
either a sequence of parts each carrying text, or a bare `text` attribute,
or no `content` attribute at all. -/
inductive CandContent where
  | parts (ps : List String)
  | textOnly (t : String)
  | absent
  deriving DecidableEq

/-- One candidate of the first generation call. -/
structure Candidate where
  safety_ratings : List SafetyRating
  content : CandContent
  deriving DecidableEq

/-- Response of the first generation call. -/
structure GenResponse where
  candidates : List Candidate
  deriving DecidableEq

/-- Outcome of the first `model.generate_content` call (main.py lines 147-151):
a response, or a raised exception with message `msg`. -/
inductive CallOutcome where
  | ok (r : GenResponse)
  | exn (msg : String)
  deriving DecidableEq

/-- Candidate of the second (assessment) call: `candidate.content.text` when the
attribute exists (main.py line 64), otherwise nothing. -/
structure Candidate2 where
  text : Option String
  deriving DecidableEq

/-- Response of the second generation call. -/
structure GenResponse2 where
  candidates : List Candidate2
  deriving DecidableEq

/-- Outcome of the `model.generate_content` call inside `analyze_threat_level`
(main.py line 55). -/
inductive CallOutcome2 where
  | ok (r : GenResponse2)
  | exn (msg : String)
  deriving DecidableEq

/-- Text extraction from the top candidate of the first call (main.py lines 167-173):
concatenate `part.text` over `content.parts` when present, else take
`content.text`, else the empty string. -/
def extractText : CandContent → String
  | .parts ps => ps.foldl (fun acc p => acc ++ p) ""
  | .textOnly t => t
  | .absent => ""

/-- Python `s.lower()`: lower-case every character. -/
def strLower (s : String) : String := ⟨s.data.map Char.toLower⟩

/-- Threat-level derivation (main.py line 69): case-insensitive substring search
for "high risk", then "low risk", else "Medium".  The Python operator `pat in s` is
substring containment, embedded as list containment `<:+:` on the characters. -/
def threatLevelOf (t : String) : String :=
  if "high risk".data <:+: (strLower t).data then "High"
  else if "low risk".data <:+: (strLower t).data then "Low"
  else "Medium"

/-- Embedding of `analyze_threat_level` (main.py lines 32-77).  `content` is the
argument; `oracle` is the outcome of the second generation call.  Returns the
pair `(threat_level, detailed_analysis)` together with a Bool recording whether
the generation call was made (it is skipped when `content` is falsy). -/
def analyze_threat_level (content : String) (oracle : CallOutcome2) :
    (String × String) × Bool :=
  if content = "" then
    (("Unable to determine threat level", "No detailed analysis available"), false)
  else
    match oracle with
    | .exn e => (("Error", e), true)
    | .ok r =>
      match r.candidates with
      | [] => (("Unable to determine threat level", "No detailed analysis available"), true)
      | c :: _ =>
        let analysis_text := c.text.getD ""
        if pyStrip analysis_text = "" then
          (("Unable to determine threat level", "No detailed analysis available"), true)
        else
          ((threatLevelOf analysis_text, analysis_text), true)

/-- Parsed JSON object body: `url` and `vulnerability` fields when present.
`model` and `parameters` are forwarded verbatim to the external call and do not
affect any verified behaviour, so they are omitted from the record. -/
structure ReqBody where
  url : Option String
  vulnerability : Option String
  deriving DecidableEq

/-- Result of `request.get_json()` (main.py line 105): a parsed object, or a
raised parse exception whose message is `msg` (Flask raises `BadRequest`, which
the handler `except Exception` of the route itself catches). -/
inductive ReqParse where
  | invalid (msg : String)
  | obj (b : ReqBody)
  deriving DecidableEq

/-- JSON response body: an error object carrying `msg` under the `error` key, or the success
object with `text`, `analysis` and `threat_level` fields. -/
inductive RespBody where
  | err (msg : String)
  | result (text analysis threat_level : String)
  deriving DecidableEq

/-- HTTP response: status code and JSON body. -/
structure HttpResponse where
  status : Nat
  body : RespBody
  deriving DecidableEq

/-- Trace of outbound calls made while handling one request: the URL passed to
`scrape_website` (if called), the prompt of the first generation call (if
made), and whether the second (assessment) generation call was made. -/
structure Trace where
  scraped : Option String
  firstPrompt : Option String
  secondCalled : Bool
  deriving DecidableEq

/-- Environment of one request: result of `scrape_website` on the normalized
URL (`none` models the `None` returned on any fetch error), and the outcomes
of the two generation calls. -/
structure Env where
  scrapeResult : Option String
  firstCall : CallOutcome
  secondCall : CallOutcome2
  deriving DecidableEq

/-- Python `s.startswith(pre)`, embedded on the character lists. -/
def pyStartsWith (s pre : String) : Bool := pre.data.isPrefixOf s.data

/-- URL normalization (main.py lines 117-118). -/
def normalizeUrl (u : String) : String :=
  if !(pyStartsWith u "http://") && !(pyStartsWith u "https://") then "http://" ++ u else u

/-- Prompt of the first generation call (main.py lines 129-134). -/
def mkPrompt (vulnerability url content : String) : String :=
  "You are an expert red-team specialist. "
    ++ "Attempt to find the following vulnerability: " ++ vulnerability ++ ". "
    ++ "Target URL: " ++ url ++ ". "
    ++ "Analyze the following website content for vulnerabilities:\n"
    ++ pyOr (strTake content 5000) ""

/-- Embedding of the `/generate` route handler `generate_text`
(main.py lines 79-195), as a function of the parsed request body and the
environment of external-call outcomes.  Returns the HTTP response and the
trace of outbound calls. -/
def generate_text (req : ReqParse) (env : Env) : HttpResponse × Trace :=
  match req with
  | .invalid e => (⟨500, .err e⟩, ⟨none, none, false⟩)
  | .obj b =>
    let url0 := b.url.getD ""
    if url0 = "" then
      (⟨400, .err "Missing \"url\" in request body"⟩, ⟨none, none, false⟩)
    else
      let url := normalizeUrl url0
      match env.scrapeResult with
      | none => (⟨500, .err "Failed to scrape website content"⟩, ⟨some url, none, false⟩)
      | some wc =>
        if wc = "" then
          (⟨500, .err "Failed to scrape website content"⟩, ⟨some url, none, false⟩)
        else
          let vulnerability := b.vulnerability.getD "Cross-Site Scripting (XSS)"
          let prompt := mkPrompt vulnerability url wc
          match env.firstCall with
          | .exn _ =>
            (⟨500, .err "Failed to generate content"⟩, ⟨some url, some prompt, false⟩)
          | .ok r =>
            match r.candidates with
            | [] =>
              (⟨500, .err "No candidates returned from the model"⟩,
               ⟨some url, some prompt, false⟩)
            | c :: _ =>
              if !(c.safety_ratings.isEmpty) && c.safety_ratings.any (fun rat => rat.blocked) then
                (⟨500, .err "Response was blocked due to safety ratings"⟩,
                 ⟨some url, some prompt, false⟩)
              else
                let generated_code := extractText c.content
                if pyStrip generated_code = "" then
                  (⟨500, .err "Generated code is empty"⟩, ⟨some url, some prompt, false⟩)
                else
                  let a := analyze_threat_level (pyOr generated_code "") env.secondCall
                  (⟨200, .result (pyOr generated_code "No output")
                                 (pyOr a.1.2 "No content to analyze")
                                 (pyOr a.1.1 "N/A")⟩,
                   ⟨some url, some prompt, a.2⟩)

/-- Helper: `pyOr` with an empty fallback is the identity. -/
theorem pyOr_empty (x : String) : pyOr x "" = x := by
  by_cases h : x = "" <;> simp [pyOr, h]

/-- Helper: a string whose stripped form is non-empty is itself non-empty. -/
theorem ne_empty_of_strip_ne_empty {s : String} (h : pyStrip s ≠ "") : s ≠ "" := by
  intro he
  subst he
  exact h (by decide)

/-- Helper: `pyOr` of a non-empty string ignores the fallback. -/
theorem pyOr_ne {a : String} (h : a ≠ "") (b : String) : pyOr a b = a := by
  simp [pyOr, h]

/-- Helper: `analyze_threat_level` on non-empty content and a raising call
returns the "Error" label with the exception text. -/
theorem analyze_threat_level_exn {content : String} (h : content ≠ "") (e : String) :
    analyze_threat_level content (.exn e) = (("Error", e), true) := by
  simp [analyze_threat_level, h]

/-- Helper: full reduction of `generate_text` along the success path up to the
second call: valid URL, fetched content, an unblocked top candidate with
non-whitespace extracted text. -/
theorem generate_text_success (b : ReqBody) (env : Env) (u wc : String)
    (c : Candidate) (rest : List Candidate)
    (hu : b.url = some u) (hne : u ≠ "")
    (hs : env.scrapeResult = some wc) (hwc : wc ≠ "")
    (hf : env.firstCall = .ok ⟨c :: rest⟩)
    (hblk : (!(c.safety_ratings.isEmpty) && c.safety_ratings.any fun rat => rat.blocked) = false)
    (hgc : pyStrip (extractText c.content) ≠ "") :
    generate_text (.obj b) env =
      (⟨200, .result (extractText c.content)
               (pyOr (analyze_threat_level (extractText c.content) env.secondCall).1.2
                 "No content to analyze")
               (pyOr (analyze_threat_level (extractText c.content) env.secondCall).1.1 "N/A")⟩,
       ⟨some (normalizeUrl u),
        some (mkPrompt (b.vulnerability.getD "Cross-Site Scripting (XSS)") (normalizeUrl u) wc),
        (analyze_threat_level (extractText c.content) env.secondCall).2⟩) := by
  have hne0 : extractText c.content ≠ "" := ne_empty_of_strip_ne_empty hgc
  simp [generate_text, hu, hne, hs, hwc, hf, hblk, hgc, pyOr_empty, pyOr_ne hne0]

/-- Claim C3: for every valid-JSON object body whose `url` field is absent or
falsy, the endpoint returns HTTP 400 with a JSON body carrying an `error`
field, and neither the page fetch nor either generation call is made. -/
theorem C3_missing_url (b : ReqBody) (env : Env) (h : b.url = none ∨ b.url = some "") :
    (generate_text (.obj b) env).1.status = 400 ∧
    (∃ m, (generate_text (.obj b) env).1.body = .err m) ∧
    (generate_text (.obj b) env).2.scraped = none ∧
    (generate_text (.obj b) env).2.firstPrompt = none ∧
    (generate_text (.obj b) env).2.secondCalled = false := by
  have hu : b.url.getD "" = "" := by rcases h with h | h <;> simp [h]
  have hred : generate_text (.obj b) env =
      (⟨400, .err "Missing \"url\" in request body"⟩, ⟨none, none, false⟩) := by
    simp [generate_text, hu]
  rw [hred]
  exact ⟨rfl, ⟨_, rfl⟩, rfl, rfl, rfl⟩

/-- Claim C3, witness: a concrete body with no `url` field is refused with 400
and no outbound call. -/
theorem C3_missing_url_witness :
    (generate_text (.obj ⟨none, some "SQLi"⟩) ⟨some "page", .exn "", .exn ""⟩).1.status = 400 ∧
    (∃ m, (generate_text (.obj ⟨none, some "SQLi"⟩) ⟨some "page", .exn "", .exn ""⟩).1.body = .err m) ∧
    (generate_text (.obj ⟨none, some "SQLi"⟩) ⟨some "page", .exn "", .exn ""⟩).2.scraped = none ∧
    (generate_text (.obj ⟨none, some "SQLi"⟩) ⟨some "page", .exn "", .exn ""⟩).2.firstPrompt = none ∧
    (generate_text (.obj ⟨none, some "SQLi"⟩) ⟨some "page", .exn "", .exn ""⟩).2.secondCalled = false :=
  C3_missing_url ⟨none, some "SQLi"⟩ ⟨some "page", .exn "", .exn ""⟩ (Or.inl rfl)

/-- Claim C4: whenever the page fetcher returns an absent result, the endpoint
returns HTTP 500 with an error body and neither generation call is attempted. -/
theorem C4_scrape_failure (b : ReqBody) (env : Env) (u : String)
    (hu : b.url = some u) (hne : u ≠ "") (hs : env.scrapeResult = none) :
    (generate_text (.obj b) env).1.status = 500 ∧
    (∃ m, (generate_text (.obj b) env).1.body = .err m) ∧
    (generate_text (.obj b) env).2.firstPrompt = none ∧
    (generate_text (.obj b) env).2.secondCalled = false := by
  have hred : generate_text (.obj b) env =
      (⟨500, .err "Failed to scrape website content"⟩, ⟨some (normalizeUrl u), none, false⟩) := by
    simp [generate_text, hu, hne, hs]
  rw [hred]
  exact ⟨rfl, ⟨_, rfl⟩, rfl, rfl⟩

/-- Claim C4, witness: a concrete fetch failure yields 500 and no generation
call. -/
theorem C4_scrape_failure_witness :
    (generate_text (.obj ⟨some "example.com", none⟩) ⟨none, .exn "", .exn ""⟩).1.status = 500 ∧
    (∃ m, (generate_text (.obj ⟨some "example.com", none⟩) ⟨none, .exn "", .exn ""⟩).1.body = .err m) ∧
    (generate_text (.obj ⟨some "example.com", none⟩) ⟨none, .exn "", .exn ""⟩).2.firstPrompt = none ∧
    (generate_text (.obj ⟨some "example.com", none⟩) ⟨none, .exn "", .exn ""⟩).2.secondCalled = false :=
  C4_scrape_failure ⟨some "example.com", none⟩ ⟨none, .exn "", .exn ""⟩ "example.com"
    rfl (by decide) rfl

/-- Claim C5: when the top candidate of the first call carries a safety rating
flagged blocked, the endpoint returns HTTP 500 with the blocked-content error,
which is distinct from the error produced when the response has no
candidates. -/
theorem C5_blocked_candidate (b : ReqBody) (u wc : String) (c : Candidate)
    (rest : List Candidate) (o2 : CallOutcome2)
    (hu : b.url = some u) (hne : u ≠ "") (hwc : wc ≠ "")
    (hrat : c.safety_ratings ≠ [])
    (hblk : c.safety_ratings.any (fun rat => rat.blocked) = true) :
    (generate_text (.obj b) ⟨some wc, .ok ⟨c :: rest⟩, o2⟩).1.status = 500 ∧
    (generate_text (.obj b) ⟨some wc, .ok ⟨c :: rest⟩, o2⟩).1.body
      = .err "Response was blocked due to safety ratings" ∧
    (generate_text (.obj b) ⟨some wc, .ok ⟨[]⟩, o2⟩).1.status = 500 ∧
    (generate_text (.obj b) ⟨some wc, .ok ⟨[]⟩, o2⟩).1.body
      = .err "No candidates returned from the model" ∧
    RespBody.err "Response was blocked due to safety ratings"
      ≠ RespBody.err "No candidates returned from the model" := by
  have hcond : (!(c.safety_ratings.isEmpty) && c.safety_ratings.any fun rat => rat.blocked) = true := by
    simp [List.isEmpty_iff, hrat, hblk]
  have hred : generate_text (.obj b) ⟨some wc, .ok ⟨c :: rest⟩, o2⟩ =
      (⟨500, .err "Response was blocked due to safety ratings"⟩,
       ⟨some (normalizeUrl u),
        some (mkPrompt (b.vulnerability.getD "Cross-Site Scripting (XSS)") (normalizeUrl u) wc),
        false⟩) := by
    simp [generate_text, hu, hne, hwc, hcond]
  have hred2 : generate_text (.obj b) ⟨some wc, .ok ⟨[]⟩, o2⟩ =
      (⟨500, .err "No candidates returned from the model"⟩,
       ⟨some (normalizeUrl u),
        some (mkPrompt (b.vulnerability.getD "Cross-Site Scripting (XSS)") (normalizeUrl u) wc),
        false⟩) := by
    simp [generate_text, hu, hne, hwc]
  rw [hred, hred2]
  exact ⟨rfl, rfl, rfl, rfl, by decide⟩

/-- Claim C5, witness: a concrete blocked candidate yields the blocked-content
500 error, distinct from the no-candidates error. -/
theorem C5_blocked_candidate_witness :
    (generate_text (.obj ⟨some "a.com", none⟩)
        ⟨some "c", .ok ⟨[⟨[⟨true⟩], .textOnly "F"⟩]⟩, .exn ""⟩).1.status = 500 ∧
    (generate_text (.obj ⟨some "a.com", none⟩)
        ⟨some "c", .ok ⟨[⟨[⟨true⟩], .textOnly "F"⟩]⟩, .exn ""⟩).1.body
      = .err "Response was blocked due to safety ratings" ∧
    (generate_text (.obj ⟨some "a.com", none⟩) ⟨some "c", .ok ⟨[]⟩, .exn ""⟩).1.status = 500 ∧
    (generate_text (.obj ⟨some "a.com", none⟩) ⟨some "c", .ok ⟨[]⟩, .exn ""⟩).1.body
      = .err "No candidates returned from the model" ∧
    RespBody.err "Response was blocked due to safety ratings"
      ≠ RespBody.err "No candidates returned from the model" :=
  C5_blocked_candidate ⟨some "a.com", none⟩ "a.com" "c" ⟨[⟨true⟩], .textOnly "F"⟩ [] (.exn "")
    rfl (by decide) (by decide) (by decide) (by decide)

/-- Claim C6: the URL handed to the fetcher is the normalization of the given
`url`: `http://` is prepended exactly once when neither prefix is present, and
a URL already carrying either prefix passes through unchanged; the prompt of
the first call, when made, embeds that same normalized URL. -/
theorem C6_url_normalization (b : ReqBody) (env : Env) (u : String)
    (hu : b.url = some u) (hne : u ≠ "") :
    (generate_text (.obj b) env).2.scraped = some (normalizeUrl u) ∧
    (pyStartsWith u "http://" = false → pyStartsWith u "https://" = false →
      normalizeUrl u = "http://" ++ u) ∧
    (pyStartsWith u "http://" = true ∨ pyStartsWith u "https://" = true →
      normalizeUrl u = u) ∧
    ((generate_text (.obj b) env).2.firstPrompt = none ∨
      ∃ v wc, (generate_text (.obj b) env).2.firstPrompt
        = some (mkPrompt v (normalizeUrl u) wc)) := by
  refine ⟨?_, ?_, ?_, ?_⟩
  · simp only [generate_text, hu, Option.getD_some]
    rw [if_neg hne]
    rcases henv : env.scrapeResult with _ | wc
    · rfl
    · by_cases hwc : wc = ""
      · simp [hwc]
      · rcases hf : env.firstCall with r | e
        · rcases hr : r.candidates with _ | ⟨c, rest⟩
          · simp [hwc, hr]
          · by_cases hb : (!(c.safety_ratings.isEmpty) && c.safety_ratings.any fun rat => rat.blocked) = true
            · simp [hwc, hr, hb]
            · by_cases hg : pyStrip (extractText c.content) = "" <;>
                simp [hwc, hr, hb, hg]
        · simp [hwc]
  · intro h1 h2
    simp [normalizeUrl, h1, h2]
  · intro h
    rcases h with h | h <;> simp [normalizeUrl, h]
  · simp only [generate_text, hu, Option.getD_some]
    rw [if_neg hne]
    rcases henv : env.scrapeResult with _ | wc
    · exact Or.inl rfl
    · by_cases hwc : wc = ""
      · refine Or.inl ?_
        simp [hwc]
      · refine Or.inr ⟨b.vulnerability.getD "Cross-Site Scripting (XSS)", wc, ?_⟩
        rcases hf : env.firstCall with r | e
        · rcases hr : r.candidates with _ | ⟨c, rest⟩
          · simp [hwc, hr]
          · by_cases hb : (!(c.safety_ratings.isEmpty) && c.safety_ratings.any fun rat => rat.blocked) = true
            · simp [hwc, hr, hb]
            · by_cases hg : pyStrip (extractText c.content) = "" <;>
                simp [hwc, hr, hb, hg]
        · simp [hwc]

/-- Claim C6, witness: a bare domain is fetched as `http://` plus the domain,
and a concrete made prompt embeds the normalized URL. -/
theorem C6_url_normalization_witness :
    (generate_text (.obj ⟨some "example.com", none⟩)
        ⟨none, .exn "", .exn ""⟩).2.scraped = some (normalizeUrl "example.com") ∧
    (pyStartsWith "example.com" "http://" = false →
      pyStartsWith "example.com" "https://" = false →
      normalizeUrl "example.com" = "http://" ++ "example.com") ∧
    (pyStartsWith "example.com" "http://" = true ∨
        pyStartsWith "example.com" "https://" = true →
      normalizeUrl "example.com" = "example.com") ∧
    ((generate_text (.obj ⟨some "example.com", none⟩)
        ⟨none, .exn "", .exn ""⟩).2.firstPrompt = none ∨
      ∃ v wc, (generate_text (.obj ⟨some "example.com", none⟩)
        ⟨none, .exn "", .exn ""⟩).2.firstPrompt
          = some (mkPrompt v (normalizeUrl "example.com") wc)) :=
  C6_url_normalization ⟨some "example.com", none⟩ ⟨none, .exn "", .exn ""⟩ "example.com"
    rfl (by decide)

/-- Claim C7, counterexample: on an invalid-JSON body the parse exception is
caught by the top-level handler of the route, so the status is 500 — a server error, not
the claimed 4xx client error. -/
theorem C7_counterexample :
    (generate_text
        (.invalid "400 Bad Request: The browser (or proxy) sent a request that this server could not understand.")
        ⟨none, .exn "", .exn ""⟩).1.status = 500 ∧
    ¬ (400 ≤ (generate_text
        (.invalid "400 Bad Request: The browser (or proxy) sent a request that this server could not understand.")
        ⟨none, .exn "", .exn ""⟩).1.status ∧
       (generate_text
        (.invalid "400 Bad Request: The browser (or proxy) sent a request that this server could not understand.")
        ⟨none, .exn "", .exn ""⟩).1.status ≤ 499) := by
  exact ⟨rfl, by decide⟩

/-- Claim C7 (amended): for every request whose body is not valid JSON, the
parse exception is caught by the top-level handler and the endpoint returns
HTTP 500 with the exception message in the error body. -/
theorem C7_invalid_json (e : String) (env : Env) :
    (generate_text (.invalid e) env).1.status = 500 ∧
    (generate_text (.invalid e) env).1.body = .err e :=
  ⟨rfl, rfl⟩

/-- Claim C8: when the first call returns an unblocked top candidate whose
concatenated text is empty or whitespace-only, the endpoint returns HTTP 500
with an error body and the second assessment call is not made. -/
theorem C8_empty_generated (b : ReqBody) (u wc : String) (c : Candidate)
    (rest : List Candidate) (o2 : CallOutcome2)
    (hu : b.url = some u) (hne : u ≠ "") (hwc : wc ≠ "")
    (hblk : (!(c.safety_ratings.isEmpty) && c.safety_ratings.any fun rat => rat.blocked) = false)
    (hg : pyStrip (extractText c.content) = "") :
    (generate_text (.obj b) ⟨some wc, .ok ⟨c :: rest⟩, o2⟩).1.status = 500 ∧
    (generate_text (.obj b) ⟨some wc, .ok ⟨c :: rest⟩, o2⟩).1.body
      = .err "Generated code is empty" ∧
    (generate_text (.obj b) ⟨some wc, .ok ⟨c :: rest⟩, o2⟩).2.secondCalled = false := by
  have hred : generate_text (.obj b) ⟨some wc, .ok ⟨c :: rest⟩, o2⟩ =
      (⟨500, .err "Generated code is empty"⟩,
       ⟨some (normalizeUrl u),
        some (mkPrompt (b.vulnerability.getD "Cross-Site Scripting (XSS)") (normalizeUrl u) wc),
        false⟩) := by
    simp [generate_text, hu, hne, hwc, hblk, hg]
  rw [hred]
  exact ⟨rfl, rfl, rfl⟩

/-- Claim C8, witness: whitespace-only concatenated parts yield the
empty-output 500 error without an assessment call. -/
theorem C8_empty_generated_witness :
    (generate_text (.obj ⟨some "a.com", none⟩)
        ⟨some "c", .ok ⟨[⟨[⟨false⟩], .parts ["  ", " \n"]⟩]⟩, .exn ""⟩).1.status = 500 ∧
    (generate_text (.obj ⟨some "a.com", none⟩)
        ⟨some "c", .ok ⟨[⟨[⟨false⟩], .parts ["  ", " \n"]⟩]⟩, .exn ""⟩).1.body
      = .err "Generated code is empty" ∧
    (generate_text (.obj ⟨some "a.com", none⟩)
        ⟨some "c", .ok ⟨[⟨[⟨false⟩], .parts ["  ", " \n"]⟩]⟩, .exn ""⟩).2.secondCalled = false :=
  C8_empty_generated ⟨some "a.com", none⟩ "a.com" "c" ⟨[⟨false⟩], .parts ["  ", " \n"]⟩ [] (.exn "")
    rfl (by decide) (by decide) (by decide) (by decide)

/-- Claim C9: for every successfully fetched page the prompt of the first
generation call is the single instruction string embedding the fixed persona
framing, the vulnerability category, the normalized URL, and the first 5000
characters of the scraped content — a hard character cutoff: the embedded
portion is a prefix of the content of length at most 5000. -/
theorem C9_prompt_shape (b : ReqBody) (env : Env) (u wc : String)
    (hu : b.url = some u) (hne : u ≠ "")
    (hs : env.scrapeResult = some wc) (hwc : wc ≠ "") :
    (generate_text (.obj b) env).2.firstPrompt =
      some ("You are an expert red-team specialist. "
        ++ "Attempt to find the following vulnerability: "
        ++ b.vulnerability.getD "Cross-Site Scripting (XSS)" ++ ". "
        ++ "Target URL: " ++ normalizeUrl u ++ ". "
        ++ "Analyze the following website content for vulnerabilities:\n"
        ++ strTake wc 5000) ∧
    (strTake wc 5000).length ≤ 5000 ∧
    (∃ restc : List Char, (strTake wc 5000).data ++ restc = wc.data) ∧
    (wc.length ≤ 5000 → strTake wc 5000 = wc) := by
  refine ⟨?_, ?_, ?_, ?_⟩
  · have hprompt : mkPrompt (b.vulnerability.getD "Cross-Site Scripting (XSS)") (normalizeUrl u) wc
        = "You are an expert red-team specialist. "
          ++ "Attempt to find the following vulnerability: "
          ++ b.vulnerability.getD "Cross-Site Scripting (XSS)" ++ ". "
          ++ "Target URL: " ++ normalizeUrl u ++ ". "
          ++ "Analyze the following website content for vulnerabilities:\n"
          ++ strTake wc 5000 := by
      rw [mkPrompt, pyOr_empty]
    rw [← hprompt]
    simp only [generate_text, hu, Option.getD_some, hs]
    rw [if_neg hne, if_neg hwc]
    rcases hf : env.firstCall with r | e
    · rcases hr : r.candidates with _ | ⟨c, rest⟩
      · simp [hr]
      · by_cases hb : (!(c.safety_ratings.isEmpty) && c.safety_ratings.any fun rat => rat.blocked) = true
        · simp [hr, hb]
        · by_cases hg : pyStrip (extractText c.content) = "" <;>
            simp [hr, hb, hg]
    · rfl
  · show (wc.data.take 5000).length ≤ 5000
    rw [List.length_take]
    exact Nat.min_le_left _ _
  · exact ⟨wc.data.drop 5000, List.take_append_drop _ _⟩
  · intro hlen
    show String.mk (wc.data.take 5000) = wc
    rw [List.take_of_length_le hlen]

/-- Claim C9, witness: a concrete short page is embedded whole and the prompt
has exactly the specified shape. -/
theorem C9_prompt_shape_witness :
    (generate_text (.obj ⟨some "example.com", some "SQL Injection"⟩)
        ⟨some "<html>hello</html>", .exn "", .exn ""⟩).2.firstPrompt =
      some ("You are an expert red-team specialist. "
        ++ "Attempt to find the following vulnerability: "
        ++ (some "SQL Injection").getD "Cross-Site Scripting (XSS)" ++ ". "
        ++ "Target URL: " ++ normalizeUrl "example.com" ++ ". "
        ++ "Analyze the following website content for vulnerabilities:\n"
        ++ strTake "<html>hello</html>" 5000) ∧
    (strTake "<html>hello</html>" 5000).length ≤ 5000 ∧
    (∃ restc : List Char,
      (strTake "<html>hello</html>" 5000).data ++ restc = "<html>hello</html>".data) ∧
    ("<html>hello</html>".length ≤ 5000 → strTake "<html>hello</html>" 5000 = "<html>hello</html>") :=
  C9_prompt_shape ⟨some "example.com", some "SQL Injection"⟩
    ⟨some "<html>hello</html>", .exn "", .exn ""⟩ "example.com" "<html>hello</html>"
    rfl (by decide) rfl (by decide)

/-- Claim C1, counterexample: the whitespace-only assessment text " " is
non-empty and contains neither "high risk" nor "low risk", so the claim
demands threat level "Medium"; the code instead takes the empty-after-strip
branch and returns the sentinel "Unable to determine threat level". -/
theorem C1_counterexample :
    (" " : String) ≠ "" ∧
    ¬ "high risk".data <:+: (strLower " ").data ∧
    ¬ "low risk".data <:+: (strLower " ").data ∧
    (analyze_threat_level "findings" (.ok ⟨[⟨some " "⟩]⟩)).1.1
      = "Unable to determine threat level" ∧
    (analyze_threat_level "findings" (.ok ⟨[⟨some " "⟩]⟩)).1.1 ≠ "Medium" := by
  refine ⟨by decide, by decide, by decide, by decide, by decide⟩

/-- Claim C1 (amended): for every assessment text that is non-empty after
stripping whitespace, the derived threat level is "High" exactly when the
lower-cased text contains "high risk"; otherwise "Low" exactly when it
contains "low risk"; otherwise "Medium". -/
theorem C1_threat_level (content t : String) (hc : content ≠ "") (ht : pyStrip t ≠ "") :
    ((analyze_threat_level content (.ok ⟨[⟨some t⟩]⟩)).1.1 = "High" ↔
      "high risk".data <:+: (strLower t).data) ∧
    (¬ "high risk".data <:+: (strLower t).data →
      ((analyze_threat_level content (.ok ⟨[⟨some t⟩]⟩)).1.1 = "Low" ↔
        "low risk".data <:+: (strLower t).data)) ∧
    (¬ "high risk".data <:+: (strLower t).data →
      ¬ "low risk".data <:+: (strLower t).data →
      (analyze_threat_level content (.ok ⟨[⟨some t⟩]⟩)).1.1 = "Medium") := by
  have h1 : (analyze_threat_level content (.ok ⟨[⟨some t⟩]⟩)).1.1 = threatLevelOf t := by
    simp [analyze_threat_level, hc, ht]
  rw [h1]
  unfold threatLevelOf
  by_cases hh : "high risk".data <:+: (strLower t).data
  · simp [hh]
  · by_cases hl : "low risk".data <:+: (strLower t).data
    · simp [hh, hl]
    · simp [hh, hl]

/-- Claim C1, witness: a concrete text containing "HIGH RISK" is classified
"High". -/
theorem C1_threat_level_witness :
    (analyze_threat_level "findings" (.ok ⟨[⟨some "Overall this is HIGH RISK."⟩]⟩)).1.1
      = "High" :=
  (C1_threat_level "findings" "Overall this is HIGH RISK." (by decide) (by decide)).1.mpr
    (by decide)

/-- Claim C2, counterexample: with sound findings "F" and a second-pass call
that raises "boom", the response is 200 and `text` is "F", but `analysis`
carries the exception text "boom" rather than "No detailed analysis
available", and `threat_level` is "Error" rather than "Unable to determine
threat level". -/
theorem C2_counterexample :
    (generate_text (.obj ⟨some "a.com", none⟩)
        ⟨some "c", .ok ⟨[⟨[], .textOnly "F"⟩]⟩, .exn "boom"⟩).1.status = 200 ∧
    (generate_text (.obj ⟨some "a.com", none⟩)
        ⟨some "c", .ok ⟨[⟨[], .textOnly "F"⟩]⟩, .exn "boom"⟩).1.body
      = .result "F" "boom" "Error" ∧
    (generate_text (.obj ⟨some "a.com", none⟩)
        ⟨some "c", .ok ⟨[⟨[], .textOnly "F"⟩]⟩, .exn "boom"⟩).1.body
      ≠ .result "F" "No detailed analysis available" "Unable to determine threat level" := by
  refine ⟨by decide, by decide, by decide⟩

/-- Claim C2 (amended): when the first call succeeds with findings that are
non-empty after stripping and the second-pass assessment call raises an
exception with message `e`, the response still has HTTP status 200 and its
`text` field carries the findings, but its `analysis` field carries the
exception message (or "No content to analyze" when that message is empty) and
its `threat_level` field is "Error". -/
theorem C2_second_call_raises (b : ReqBody) (u wc e : String) (c : Candidate)
    (rest : List Candidate)
    (hu : b.url = some u) (hne : u ≠ "") (hwc : wc ≠ "")
    (hblk : (!(c.safety_ratings.isEmpty) && c.safety_ratings.any fun rat => rat.blocked) = false)
    (hg : pyStrip (extractText c.content) ≠ "") :
    (generate_text (.obj b) ⟨some wc, .ok ⟨c :: rest⟩, .exn e⟩).1.status = 200 ∧
    (generate_text (.obj b) ⟨some wc, .ok ⟨c :: rest⟩, .exn e⟩).1.body
      = .result (extractText c.content) (pyOr e "No content to analyze") "Error" ∧
    (generate_text (.obj b) ⟨some wc, .ok ⟨c :: rest⟩, .exn e⟩).2.secondCalled = true := by
  have hne0 : extractText c.content ≠ "" := ne_empty_of_strip_ne_empty hg
  have hred := generate_text_success b ⟨some wc, .ok ⟨c :: rest⟩, .exn e⟩ u wc c rest
    hu hne rfl hwc rfl hblk hg
  have ha : analyze_threat_level (extractText c.content)
      (Env.mk (some wc) (.ok ⟨c :: rest⟩) (.exn e)).secondCall = (("Error", e), true) :=
    analyze_threat_level_exn hne0 e
  rw [hred]
  refine ⟨rfl, ?_, ?_⟩
  · show RespBody.result _ _ _ = _
    rw [ha]
    have hErr : pyOr "Error" "N/A" = "Error" := by decide
    simp [hErr]
  · show (analyze_threat_level _ _).2 = true
    rw [ha]

/-- Claim C2, witness: a concrete request where the assessment call raises
"boom" still returns 200 with the findings and the "Error" label. -/
theorem C2_second_call_raises_witness :
    (generate_text (.obj ⟨some "a.com", none⟩)
        ⟨some "c", .ok ⟨[⟨[], .textOnly "Findings F"⟩]⟩, .exn "boom"⟩).1.status = 200 ∧
    (generate_text (.obj ⟨some "a.com", none⟩)
        ⟨some "c", .ok ⟨[⟨[], .textOnly "Findings F"⟩]⟩, .exn "boom"⟩).1.body
      = .result (extractText (.textOnly "Findings F")) (pyOr "boom" "No content to analyze") "Error" ∧
    (generate_text (.obj ⟨some "a.com", none⟩)
        ⟨some "c", .ok ⟨[⟨[], .textOnly "Findings F"⟩]⟩, .exn "boom"⟩).2.secondCalled = true :=
  C2_second_call_raises ⟨some "a.com", none⟩ "a.com" "c" "boom" ⟨[], .textOnly "Findings F"⟩ []
    rfl (by decide) (by decide) (by decide) (by decide)

/-- Claim C10: every HTTP 200 response comes from the success path, so its
`text` field is exactly the concatenated first-call findings, which are
non-empty and not whitespace-only; in particular the `or "No output"`
fallback is never taken, empty findings having been rejected with a 500
before the response is composed. -/
theorem C10_success_text (req : ReqParse) (env : Env)
    (h : (generate_text req env).1.status = 200) :
    ∃ b u wc c rest,
      req = .obj b ∧ b.url = some u ∧ u ≠ "" ∧
      env.scrapeResult = some wc ∧ wc ≠ "" ∧
      env.firstCall = .ok ⟨c :: rest⟩ ∧
      pyStrip (extractText c.content) ≠ "" ∧ extractText c.content ≠ "" ∧
      pyOr (extractText c.content) "No output" = extractText c.content ∧
      ∃ a l, (generate_text req env).1.body = .result (extractText c.content) a l := by
  rcases req with e | b
  · exact absurd h (by simp [generate_text])
  · rcases hub : b.url with _ | u
    · exact absurd h (by simp [generate_text, hub])
    · by_cases hu0 : u = ""
      · exact absurd h (by simp [generate_text, hub, hu0])
      · rcases hs : env.scrapeResult with _ | wc
        · exact absurd h (by simp [generate_text, hub, hu0, hs])
        · by_cases hwc : wc = ""
          · exact absurd h (by simp [generate_text, hub, hu0, hs, hwc])
          · rcases hf : env.firstCall with ⟨cands⟩ | e2
            · rcases cands with _ | ⟨c, rest⟩
              · exact absurd h (by simp [generate_text, hub, hu0, hs, hwc, hf])
              · by_cases hb : (!(c.safety_ratings.isEmpty) &&
                    c.safety_ratings.any fun rat => rat.blocked) = true
                · exact absurd h (by simp [generate_text, hub, hu0, hs, hwc, hf, hb])
                · by_cases hg : pyStrip (extractText c.content) = ""
                  · exact absurd h (by simp [generate_text, hub, hu0, hs, hwc, hf, hb, hg])
                  · have hb2 : (!(c.safety_ratings.isEmpty) &&
                        c.safety_ratings.any fun rat => rat.blocked) = false := by
                      simpa using hb
                    have hne0 : extractText c.content ≠ "" := ne_empty_of_strip_ne_empty hg
                    have hred := generate_text_success b env u wc c rest
                      hub hu0 hs hwc hf hb2 hg
                    refine ⟨b, u, wc, c, rest, rfl, hub, hu0, rfl, hwc, rfl, hg, hne0,
                      pyOr_ne hne0 _, ?_⟩
                    rw [hred]
                    exact ⟨_, _, rfl⟩
            · exact absurd h (by simp [generate_text, hub, hu0, hs, hwc, hf])

/-- Claim C10, witness: a concrete successful run; its 200 response carries
the findings verbatim in `text`. -/
theorem C10_success_text_witness :
    ∃ b u wc c rest,
      ReqParse.obj ⟨some "example.com", none⟩ = .obj b ∧ b.url = some u ∧ u ≠ "" ∧
      (Env.mk (some "<html>hello</html>")
        (.ok ⟨[⟨[], .textOnly "Found an XSS vector. This is medium risk."⟩]⟩)
        (.ok ⟨[⟨some "Found an XSS vector. This is medium risk."⟩]⟩)).scrapeResult
          = some wc ∧ wc ≠ "" ∧
      (Env.mk (some "<html>hello</html>")
        (.ok ⟨[⟨[], .textOnly "Found an XSS vector. This is medium risk."⟩]⟩)
        (.ok ⟨[⟨some "Found an XSS vector. This is medium risk."⟩]⟩)).firstCall
          = .ok ⟨c :: rest⟩ ∧
      pyStrip (extractText c.content) ≠ "" ∧ extractText c.content ≠ "" ∧
      pyOr (extractText c.content) "No output" = extractText c.content ∧
      ∃ a l, (generate_text (.obj ⟨some "example.com", none⟩)
        (Env.mk (some "<html>hello</html>")
          (.ok ⟨[⟨[], .textOnly "Found an XSS vector. This is medium risk."⟩]⟩)
          (.ok ⟨[⟨some "Found an XSS vector. This is medium risk."⟩]⟩))).1.body
            = .result (extractText c.content) a l :=
  C10_success_text (.obj ⟨some "example.com", none⟩)
    (Env.mk (some "<html>hello</html>")
      (.ok ⟨[⟨[], .textOnly "Found an XSS vector. This is medium risk."⟩]⟩)
      (.ok ⟨[⟨some "Found an XSS vector. This is medium risk."⟩]⟩))
    (by decide)

end RTG
